import Mathlib

/-!
Verification of the SPD-Reader-Writer configuration headers.

The repository ships two settings files, each a C preprocessor constant
table:
  src/arduino/SpdReaderWriter/SpdReaderWriterSettings.h
  src/firmware/SpdReaderWriterSettings.h
We embed each file line by line as a list of preprocessor lines.  The
text of comments is abstracted away (the C preprocessor discards it);
every other piece of content — directive kind, macro name, macro value —
is kept verbatim.  The line datatype has constructors for the directives
and code lines that COULD occur in a C header, so that theorems stating
that only certain line kinds occur are judgements about the files, not
artifacts of the embedding.
-/

namespace SpdSettings

/-- The right-hand side of a `#define`: an integer literal, a bare
identifier, or a pipe-separated (bitwise-or) combination of identifiers. -/
inductive CValue where
  | int : Nat → CValue
  | ident : String → CValue
  | orOf : List String → CValue
deriving DecidableEq, Repr

/-- One physical line of a C header file.  A `define` records the macro
name and its value; comment text is abstracted (`comment` covers both
line and block-comment lines).  The remaining constructors cover the
other line shapes a C header can contain: conditional directives,
`#undef`, `#include`, and ordinary (non-directive) code lines. -/
inductive CLine where
  | define : String → CValue → CLine
  | blank : CLine
  | comment : CLine
  | condIf : String → CLine
  | condIfdef : String → CLine
  | condIfndef : String → CLine
  | condElse : CLine
  | condEndif : CLine
  | undefDirective : String → CLine
  | includeDirective : String → CLine
  | code : String → CLine
deriving DecidableEq, Repr

/-- `true` exactly on `#define` lines. -/
def CLine.isDefine : CLine → Bool
  | .define _ _ => true
  | _ => false

/-- `true` exactly on blank lines. -/
def CLine.isBlank : CLine → Bool
  | .blank => true
  | _ => false

/-- `true` exactly on comment-only lines. -/
def CLine.isComment : CLine → Bool
  | .comment => true
  | _ => false

/-- `true` exactly on conditional (logic-branch) preprocessor lines:
`#if`, `#ifdef`, `#ifndef`, `#else`, `#endif`. -/
def CLine.isConditional : CLine → Bool
  | .condIf _ => true
  | .condIfdef _ => true
  | .condIfndef _ => true
  | .condElse => true
  | .condEndif => true
  | _ => false

/-- `true` exactly on `#undef` lines. -/
def CLine.isUndef : CLine → Bool
  | .undefDirective _ => true
  | _ => false

/-- src/arduino/SpdReaderWriter/SpdReaderWriterSettings.h, line by line:
six `#define` lines (each carrying a trailing comment, which the
preprocessor discards) followed by one blank line. -/
def arduinoSettings : List CLine := [
  .define "PORT" (.ident "Serial"),
  .define "BAUD_RATE" (.int 115200),
  .define "HVSW" (.int 6),
  .define "SA0SW" (.int 2),
  .define "SA1SW" (.int 3),
  .define "SA2SW" (.int 4),
  .blank
]

/-- src/firmware/SpdReaderWriterSettings.h, line by line: a twelve-line
header block comment, three commented groups of `#define` lines
(communication settings, pins config, RAM support), separated by blank
lines and single-line section comments. -/
def firmwareSettings : List CLine := [
  .comment, .comment, .comment, .comment, .comment, .comment,
  .comment, .comment, .comment, .comment, .comment, .comment,
  .blank,
  .comment,
  .define "PORT" (.ident "Serial"),
  .define "BAUD_RATE" (.int 115200),
  .define "I2C_CLOCK" (.int 100000),
  .blank,
  .comment,
  .define "HV_SW" (.int 9),
  .define "HV_FB" (.int 6),
  .define "OFF_SW" (.ident "A0"),
  .define "SA1_SW" (.ident "A1"),
  .blank,
  .comment,
  .define "RAM_SUPPORT" (.orOf ["DDR2", "DDR3", "DDR4", "DDR5"]),
  .blank
]

/-- The names defined by the `#define` lines of a file, in file order. -/
def defineNames (f : List CLine) : List String :=
  f.filterMap fun l => match l with
    | .define n _ => some n
    | _ => none

/-- The value the file's first `#define` of `n` assigns, if any. -/
def lookupDefine : List CLine → String → Option CValue
  | [], _ => none
  | .define m v :: rest, n => if m = n then some v else lookupDefine rest n
  | _ :: rest, n => lookupDefine rest n

/-- `true` when the file contains a `#define` of `n`. -/
def definesName (f : List CLine) (n : String) : Bool :=
  (lookupDefine f n).isSome

/-- `true` when one of the two settings files defines `n`. -/
def definedSomewhere (n : String) : Bool :=
  definesName arduinoSettings n || definesName firmwareSettings n

/-- The constants the spec lists as the externally visible artifact.
Each inner list is one constant together with its alternative spellings,
exactly as the spec groups them with slashes (for example
`HVSW`/`HV_SW`/`HV_EN` is one constant with three spellings). -/
def specConstantGroups : List (List String) := [
  ["PORT"],
  ["BAUD_RATE"],
  ["HVSW", "HV_SW", "HV_EN"],
  ["HVDET", "HV_FB"],
  ["SA0SW", "OFF_SW", "OFF_EN"],
  ["SA1SW", "SA1_SW", "SA1_EN"],
  ["SA2SW"],
  ["I2CCLOCK", "I2C_CLOCK"],
  ["RAM_SUPPORT"]
]

/-- The claim of C2 as stated: every definition (name and value) present
in one settings file appears identically in the other settings file. -/
def defsReusedVerbatim : Prop :=
  ∀ n v, (lookupDefine arduinoSettings n = some v →
            lookupDefine firmwareSettings n = some v) ∧
         (lookupDefine firmwareSettings n = some v →
            lookupDefine arduinoSettings n = some v)

/-- The pin-assignment constant names of the arduino revision. -/
def arduinoPinNames : List String := ["HVSW", "SA0SW", "SA1SW", "SA2SW"]

/-- The pin-assignment constant names of the firmware revision. -/
def firmwarePinNames : List String := ["HV_SW", "HV_FB", "OFF_SW", "SA1_SW"]

/-- `true` when a value is a small integer GPIO number (an Arduino
digital pin number, at most 13) or a symbolic GPIO identifier (an analog
pin name `A0`..`A7`). -/
def isGpioValue : CValue → Bool
  | .int n => n ≤ 13
  | .ident s => ["A0", "A1", "A2", "A3", "A4", "A5", "A6", "A7"].contains s
  | .orOf _ => false

/-- `true` when the file defines `n` and the defined value is a GPIO
pin value in the sense of `isGpioValue`. -/
def definesGpioPin (f : List CLine) (n : String) : Bool :=
  match lookupDefine f n with
  | some v => isGpioValue v
  | none => false

/-- Claim C1: every constant the spec lists as the externally visible
artifact (each slash-group counting as one constant with alternative
spellings) is defined by a `#define` in at least one of the two settings
files, and conversely every `#define` name appearing in either file is
one of the listed spellings. -/
theorem C1_spec_constant_inventory :
    (specConstantGroups.all fun g => g.any definedSomewhere) = true ∧
    ((defineNames arduinoSettings ++ defineNames firmwareSettings).all
      fun n => specConstantGroups.any fun g => g.contains n) = true := by
  decide

/-- Counterexample to claim C2 as stated: `HVSW` is defined (with value
6) in the arduino revision but has no definition at all in the firmware
revision, so the definitions are not reused verbatim across the two
files. -/
theorem C2_counterexample_not_verbatim : ¬ defsReusedVerbatim := by
  intro h
  have h6 := (h "HVSW" (CValue.int 6)).1 (by decide)
  exact absurd h6 (by decide)

/-- Claim C2 (amended): for every constant name defined in both
revisions' settings files, the two files assign it the identical
definition. -/
theorem C2_common_defs_identical :
    ∀ n, n ∈ defineNames arduinoSettings → n ∈ defineNames firmwareSettings →
      lookupDefine arduinoSettings n = lookupDefine firmwareSettings n := by
  intro n h1 h2
  have hl : defineNames arduinoSettings =
      ["PORT", "BAUD_RATE", "HVSW", "SA0SW", "SA1SW", "SA2SW"] := by decide
  rw [hl] at h1
  simp only [List.mem_cons, List.not_mem_nil, or_false] at h1
  rcases h1 with rfl | rfl | rfl | rfl | rfl | rfl
  · decide
  · decide
  · exact absurd h2 (by decide)
  · exact absurd h2 (by decide)
  · exact absurd h2 (by decide)
  · exact absurd h2 (by decide)

/-- Witness for C2 (amended), at the concrete common name `PORT`. -/
theorem C2_common_defs_identical_witness :
    lookupDefine arduinoSettings "PORT" = lookupDefine firmwareSettings "PORT" :=
  C2_common_defs_identical "PORT" (by decide) (by decide)

/-- Claim C3: exactly one of the two revisions defines `RAM_SUPPORT` —
the firmware revision defines it as the bitwise-or of the four memory
generation tags DDR2, DDR3, DDR4, DDR5, and the arduino revision does
not define it. -/
theorem C3_ram_support_flag_set :
    lookupDefine firmwareSettings "RAM_SUPPORT" =
      some (.orOf ["DDR2", "DDR3", "DDR4", "DDR5"]) ∧
    lookupDefine arduinoSettings "RAM_SUPPORT" = none := by
  decide

/-- Claim C4: every pin-assignment constant of either revision (`HVSW`,
`SA0SW`, `SA1SW`, `SA2SW` in the arduino revision; `HV_SW`, `HV_FB`,
`OFF_SW`, `SA1_SW` in the firmware revision) is defined, and its value
is a small integer GPIO number or a symbolic GPIO identifier. -/
theorem C4_pin_values_are_gpio :
    (arduinoPinNames.all (definesGpioPin arduinoSettings)) = true ∧
    (firmwarePinNames.all (definesGpioPin firmwareSettings)) = true := by
  decide

/-- Claim C5: every non-blank, non-comment line of both settings files
is a `#define` directive; in particular neither file contains any
conditional preprocessor construct, `#undef`, `#include`, or ordinary
code line. -/
theorem C5_only_define_lines :
    ((arduinoSettings ++ firmwareSettings).all
      fun l => l.isDefine || l.isBlank || l.isComment) = true ∧
    ((arduinoSettings ++ firmwareSettings).all
      fun l => !(l.isConditional || l.isUndef)) = true := by
  decide

/-- Claim C6: within each settings file every constant name is defined
exactly once (the list of defined names has no duplicates) and no
`#undef` occurs, so each constant's value is fixed for the whole
compilation. -/
theorem C6_defines_unique_no_undef :
    (defineNames arduinoSettings).Nodup ∧
    (defineNames firmwareSettings).Nodup ∧
    (arduinoSettings.all fun l => !l.isUndef) = true ∧
    (firmwareSettings.all fun l => !l.isUndef) = true := by
  decide

/-- Claim C7: the pin-assignment constants of each revision are pairwise
distinct — the arduino revision assigns `HVSW`, `SA0SW`, `SA1SW`,
`SA2SW` the four different pins 6, 2, 3, 4, and the firmware revision
assigns `HV_SW`, `HV_FB`, `OFF_SW`, `SA1_SW` the four different pins 9,
6, A0, A1 — so within a revision no GPIO is assigned two functions. -/
theorem C7_pins_pairwise_distinct :
    arduinoPinNames.filterMap (lookupDefine arduinoSettings) =
      [.int 6, .int 2, .int 3, .int 4] ∧
    firmwarePinNames.filterMap (lookupDefine firmwareSettings) =
      [.int 9, .int 6, .ident "A0", .ident "A1"] ∧
    (arduinoPinNames.filterMap (lookupDefine arduinoSettings)).Nodup ∧
    (firmwarePinNames.filterMap (lookupDefine firmwareSettings)).Nodup := by
  decide

/-- Claim C8: both revisions define `PORT` as `Serial` and `BAUD_RATE`
as the integer 115200, so the communication settings of the two
revisions agree. -/
theorem C8_comm_settings_agree :
    lookupDefine arduinoSettings "PORT" = some (.ident "Serial") ∧
    lookupDefine firmwareSettings "PORT" = some (.ident "Serial") ∧
    lookupDefine arduinoSettings "BAUD_RATE" = some (.int 115200) ∧
    lookupDefine firmwareSettings "BAUD_RATE" = some (.int 115200) := by
  decide

/-- Claim C9: the firmware revision defines `I2C_CLOCK` as the integer
100000, while the arduino revision defines no I2C clock constant under
either spelling (`I2C_CLOCK` or `I2CCLOCK`). -/
theorem C9_i2c_clock_firmware_only :
    lookupDefine firmwareSettings "I2C_CLOCK" = some (.int 100000) ∧
    lookupDefine arduinoSettings "I2C_CLOCK" = none ∧
    lookupDefine arduinoSettings "I2CCLOCK" = none := by
  decide

end SpdSettings
